import Mathlib

/-!
Verification of the `jupyterhub-winlocalprocessspawner` repository.

This file is a shallow embedding of the code in
`winlocalprocessspawner/win_utils.py` and
`winlocalprocessspawner/winlocalprocessspawner.py`.

Stateful Windows API interactions (opening window stations, creating the
process, waiting, closing handles, ...) are modelled by explicit state
passing: the possible outcomes of each OS call appear as fields of an
oracle record, and the embedded functions record which calls were made,
what was logged, and what the final Python-level outcome (normal return
or raised exception) is.  Pure helpers (`list2cmdline`, `shlex.quote`,
environment merging, working-directory resolution) are translated
directly as Lean functions.
-/

set_option autoImplicit false

namespace WinSpawner

/-! ## Windows access-mask constants (values of the `win32con` module) -/

def GENERIC_READ : Nat := 0x80000000
def GENERIC_WRITE : Nat := 0x40000000
def GENERIC_EXECUTE : Nat := 0x20000000
def GENERIC_ALL : Nat := 0x10000000

def WINSTA_ACCESSCLIPBOARD : Nat := 0x0004
def WINSTA_ACCESSGLOBALATOMS : Nat := 0x0020
def WINSTA_CREATEDESKTOP : Nat := 0x0008
def WINSTA_ENUMDESKTOPS : Nat := 0x0001
def WINSTA_ENUMERATE : Nat := 0x0100
def WINSTA_EXITWINDOWS : Nat := 0x0040
def WINSTA_READATTRIBUTES : Nat := 0x0002
def WINSTA_READSCREEN : Nat := 0x0200
def WINSTA_WRITEATTRIBUTES : Nat := 0x0010

def DESKTOP_CREATEMENU : Nat := 0x0004
def DESKTOP_CREATEWINDOW : Nat := 0x0002
def DESKTOP_ENUMERATE : Nat := 0x0040
def DESKTOP_HOOKCONTROL : Nat := 0x0008
def DESKTOP_JOURNALPLAYBACK : Nat := 0x0020
def DESKTOP_JOURNALRECORD : Nat := 0x0010
def DESKTOP_READOBJECTS : Nat := 0x0001
def DESKTOP_SWITCHDESKTOP : Nat := 0x0100
def DESKTOP_WRITEOBJECTS : Nat := 0x0080

def DELETE : Nat := 0x00010000
def READ_CONTROL : Nat := 0x00020000
def WRITE_DAC : Nat := 0x00040000
def WRITE_OWNER : Nat := 0x00080000

def ACL_REVISION_DS : Nat := 4

/-- The `GENERIC_ACCESS` mask of `win_utils.py`. -/
def GENERIC_ACCESS : Nat :=
  GENERIC_READ ||| GENERIC_WRITE ||| GENERIC_EXECUTE ||| GENERIC_ALL

/-- The `WINSTA_ALL` mask of `win_utils.py`. -/
def WINSTA_ALL : Nat :=
  WINSTA_ACCESSCLIPBOARD ||| WINSTA_ACCESSGLOBALATOMS ||| WINSTA_CREATEDESKTOP
    ||| WINSTA_ENUMDESKTOPS ||| WINSTA_ENUMERATE ||| WINSTA_EXITWINDOWS
    ||| WINSTA_READATTRIBUTES ||| WINSTA_READSCREEN ||| WINSTA_WRITEATTRIBUTES
    ||| DELETE ||| READ_CONTROL ||| WRITE_DAC ||| WRITE_OWNER

/-- The `DESKTOP_ALL` mask of `win_utils.py`. -/
def DESKTOP_ALL : Nat :=
  DESKTOP_CREATEMENU ||| DESKTOP_CREATEWINDOW ||| DESKTOP_ENUMERATE
    ||| DESKTOP_HOOKCONTROL ||| DESKTOP_JOURNALPLAYBACK ||| DESKTOP_JOURNALRECORD
    ||| DESKTOP_READOBJECTS ||| DESKTOP_SWITCHDESKTOP ||| DESKTOP_WRITEOBJECTS
    ||| DELETE ||| READ_CONTROL ||| WRITE_DAC ||| WRITE_OWNER

/-! ## Access Grantor (`setup_sacl` in `win_utils.py`)

`setup_sacl` opens `winsta0` and the `default` desktop, reads each object's
existing DACL (creating an empty `win32security.ACL()` when the descriptor
holds none), appends two access-allowed ACEs for the user SID with
`AddAccessAllowedAce` (which appends at the end of the ACL), and writes the
modified DACL back with `SetSecurityInfo`.  We model the DACLs of the two
objects as the mutable state this function transforms; `none` models an
object whose security descriptor carries no DACL. -/

/-- A security identifier, an abstract value to this code. -/
abbrev Sid := Nat

/-- One access-allowed access-control entry as added by `AddAccessAllowedAce`. -/
structure ACE where
  revision : Nat
  mask : Nat
  sid : Sid
deriving DecidableEq, Repr

/-- The DACLs of the interactive window station and the default desktop. -/
structure SaclState where
  winstaDacl : Option (List ACE)
  desktopDacl : Option (List ACE)
deriving DecidableEq, Repr

/-- Function `setup_sacl` of `win_utils.py`: the transformation it performs on the
window-station and desktop DACLs on its success path. -/
def setup_sacl (user_group_sid : Sid) (st : SaclState) : SaclState :=
  let dacl_win_sta := st.winstaDacl.getD []
  let dacl_win_sta := dacl_win_sta ++
    [⟨ACL_REVISION_DS, GENERIC_ACCESS, user_group_sid⟩,
     ⟨ACL_REVISION_DS, WINSTA_ALL, user_group_sid⟩]
  let dacl_desktop := st.desktopDacl.getD []
  let dacl_desktop := dacl_desktop ++
    [⟨ACL_REVISION_DS, GENERIC_ACCESS, user_group_sid⟩,
     ⟨ACL_REVISION_DS, DESKTOP_ALL, user_group_sid⟩]
  { winstaDacl := some dacl_win_sta, desktopDacl := some dacl_desktop }

/-! ## `subprocess.list2cmdline` (used by `PopenAsUser.do_execute_child`)

`do_execute_child` normalizes a list of arguments into one command-line
string with `subprocess.list2cmdline`, the CPython implementation of the
MS C runtime quoting rules.  Translated from the CPython source the
repository runs on: an argument needs quoting iff it contains a space or
tab or is empty; backslashes are buffered and doubled when they precede a
double quote (or the closing quote of a quoted argument); a double quote
is emitted as a backslash-escaped quote. -/

/-- The `needquote` test of `list2cmdline`:
`(" " in arg) or ("\t" in arg) or not arg`. -/
def needquote (arg : String) : Bool :=
  arg.toList.contains ' ' || arg.toList.contains '\t' || arg = ""

/-- The character loop of `list2cmdline` over one argument.  The first
component is the emitted text, the second the buffered trailing
backslashes (`bs_buf` at loop exit). -/
def cmdlineScan : List Char → List Char → List Char × List Char
  | [], bs => ([], bs)
  | c :: rest, bs =>
    if c = '\\' then
      cmdlineScan rest (bs ++ [c])
    else if c = '"' then
      let p := cmdlineScan rest []
      (List.replicate (2 * bs.length) '\\' ++ '\\' :: '"' :: p.1, p.2)
    else
      let p := cmdlineScan rest []
      (bs ++ c :: p.1, p.2)

/-- The rendering `list2cmdline` produces for one argument: an opening
quote when `needquote`, the scanned body, the trailing backslash buffer
(doubled, then a closing quote, when `needquote`). -/
def renderArg (arg : String) : String :=
  let nq := needquote arg
  let p := cmdlineScan arg.toList []
  String.mk ((if nq then ['"'] else []) ++ p.1 ++ p.2 ++
    (if nq then p.2 ++ ['"'] else []))

/-- Function `subprocess.list2cmdline`: per-argument renderings joined by single
spaces into one command-line string. -/
def list2cmdline (seq : List String) : String :=
  String.intercalate " " (seq.map renderArg)

/-! ## `shlex.quote` (used by `WinLocalProcessSpawner.start` for `shell_cmd`)

Translated from the CPython source: a string is returned unchanged when
every character matches the safe class `[-A-Za-z0-9_@%+=:,./]`; the empty
string becomes two single quotes; otherwise the string is wrapped in
single quotes with every embedded single quote replaced by the five
characters quote, double-quote, quote, double-quote, quote. -/

/-- The single-quote character. -/
def squote : Char := Char.ofNat 39

/-- Membership in `shlex._find_unsafe`'s complement class
`[-A-Za-z0-9_@%+=:,./]` (ASCII `\w` plus the listed punctuation). -/
def shlexSafe (c : Char) : Bool :=
  c.isAlphanum || c = '_' || c = '@' || c = '%' || c = '+' || c = '='
    || c = ':' || c = ',' || c = '.' || c = '/' || c = '-'

/-- The replacement `shlex.quote` makes for an embedded single quote. -/
def squoteEsc : List Char := [squote, '"', squote, '"', squote]

/-- Function `shlex.quote` of the CPython standard library. -/
def shlexQuote (s : String) : String :=
  if s = "" then String.mk [squote, squote]
  else if s.toList.all shlexSafe then s
  else String.mk (squote ::
    (s.toList.map (fun c => if c = squote then squoteEsc else [c])).flatten
    ++ [squote])

/-- The command assembly of `WinLocalProcessSpawner.start`: with a non-empty
`shell_cmd` the whole command list is joined (each argument
`shlex.quote`d) and appended as the single last argument of the shell
command; otherwise the command list is used as is. -/
def buildCmd (cmd : List String) (shell_cmd : List String) : List String :=
  if shell_cmd = [] then cmd
  else shell_cmd ++ [String.intercalate " " (cmd.map shlexQuote)]

/-! ## Environment maps

Python `dict`s of environment variables, modelled as association lists
with first-match lookup; `insertEnv` overwrites in place like a `dict`
item assignment, `updateEnv` is `dict.update` (every key of the argument
overrides). -/

/-- An environment block: variable name to value. -/
abbrev EnvMap := List (String × String)

/-- Python `dict.__getitem__` / `dict.get`: first binding of the key. -/
def findEnv : EnvMap → String → Option String
  | [], _ => none
  | (k', v') :: rest, k => if k' = k then some v' else findEnv rest k

/-- Python `dict.__setitem__`: replace the binding in place, or append. -/
def insertEnv : EnvMap → String → String → EnvMap
  | [], k, v => [(k, v)]
  | (k', v') :: rest, k, v =>
    if k' = k then (k, v) :: rest else (k', v') :: insertEnv rest k v

/-- Python `dict.update`: every binding of `u` overrides `e`. -/
def updateEnv (e : EnvMap) (u : EnvMap) : EnvMap :=
  u.foldl (fun a p => insertEnv a p.1 p.2) e

/-- The `win_env_keep` list of `WinLocalProcessSpawner.get_env`. -/
def winEnvKeep : List String := ["SYSTEMROOT", "APPDATA", "WINDIR", "USERPROFILE", "TEMP"]

/-- The copy loop of `get_env`: for each key in `keys` present in
`osEnviron`, force the `osEnviron` value into the map. -/
def forceKeys (osEnviron : EnvMap) (keys : List String) (base : EnvMap) : EnvMap :=
  keys.foldl (fun e k =>
    match findEnv osEnviron k with
    | some v => insertEnv e k v
    | none => e) base

/-- Method `WinLocalProcessSpawner.get_env`: the inherited environment `base`
with the Windows-critical variables forced from the hub's own process
environment `osEnviron`. -/
def get_env (base osEnviron : EnvMap) : EnvMap :=
  forceKeys osEnviron winEnvKeep base

/-- The environment `WinLocalProcessSpawner.start` finally passes to
`PopenAsUser`: `get_env`'s result, updated with the user-profile block
(`win32profile.CreateEnvironmentBlock`) when a token is present and the
block was built successfully (`none` models both no-token and the logged
build failure). -/
def childEnv (base osEnviron : EnvMap) (userEnv : Option EnvMap) : EnvMap :=
  match userEnv with
  | some u => updateEnv (get_env base osEnviron) u
  | none => get_env base osEnviron

/-! ## Working-directory resolution
(`WinLocalProcessSpawner._determine_working_directory`)

The filesystem is modelled by the predicate `fs : String → Bool`
(`os.path.isdir`); `getcwd = none` models `os.getcwd()` raising; the
`tempfile.mkdtemp` call is modelled by its contract: it returns the fresh
path `freshTmp` and the directory exists afterwards, so the function also
returns the filesystem state after the call.  Python truthiness of the
`notebook_dir` trait (a string, empty when unset), of the `user_env`
dict and of the `USERPROFILE` value is made explicit. -/

/-- The profile-directory candidate tested by
`_determine_working_directory`: requires a truthy `user_env` dict and a
truthy `user_env.get('USERPROFILE')`. -/
def profileCandidate (user_env : Option EnvMap) : Option String :=
  match user_env with
  | none => none
  | some u =>
    if u.isEmpty then none
    else
      match findEnv u "USERPROFILE" with
      | none => none
      | some s => if s = "" then none else some s

/-- The tail of `_determine_working_directory`: try `os.getcwd()`, fall
back to `tempfile.mkdtemp()` (which creates the returned directory). -/
def cwdFallback (fs : String → Bool) (getcwd : Option String) (freshTmp : String) :
    String × (String → Bool) :=
  match getcwd with
  | some c => (c, fs)
  | none => (freshTmp, fun q => q == freshTmp || fs q)

/-- Method `WinLocalProcessSpawner._determine_working_directory`.  Returns the
chosen directory and the filesystem state afterwards. -/
def determine_working_directory (notebook_dir : String) (fs : String → Bool)
    (user_env : Option EnvMap) (getcwd : Option String) (freshTmp : String) :
    String × (String → Bool) :=
  if notebook_dir ≠ "" ∧ fs notebook_dir then (notebook_dir, fs)
  else
    match profileCandidate user_env with
    | some p => if fs p then (p, fs) else cwdFallback fs getcwd freshTmp
    | none => cwdFallback fs getcwd freshTmp

/-! ## The keyword arguments `start` passes to `PopenAsUser` -/

/-- A value in the `popen_kwargs` dict of `start`. -/
inductive PopenArg
  | tokenArg (t : Option Nat)
  | cwdArg (s : Option String)
  | envArg (e : EnvMap)
  | otherArg (s : String)
deriving DecidableEq, Repr

/-- A Python keyword-argument dict. -/
abbrev Kwargs := List (String × PopenArg)

/-- Python `dict.__getitem__` on keyword arguments. -/
def kwFind : Kwargs → String → Option PopenArg
  | [], _ => none
  | (k', v') :: rest, k => if k' = k then some v' else kwFind rest k

/-- Python `dict.__setitem__` on keyword arguments. -/
def kwInsert : Kwargs → String → PopenArg → Kwargs
  | [], k, v => [(k, v)]
  | (k', v') :: rest, k, v =>
    if k' = k then (k, v) :: rest else (k', v') :: kwInsert rest k v

/-- Python `dict.update` on keyword arguments. -/
def kwUpdate (e : Kwargs) (u : Kwargs) : Kwargs :=
  u.foldl (fun a p => kwInsert a p.1 p.2) e

/-- The `popen_kwargs` assembly in `WinLocalProcessSpawner.start`:
`dict(token=..., cwd=...)`, then `popen_kwargs.update(self.popen_kwargs)`,
then the overwrite `popen_kwargs['env'] = env`. -/
def buildPopenKwargs (token : Option Nat) (cwd : Option String)
    (userKwargs : Kwargs) (env : EnvMap) : Kwargs :=
  let base : Kwargs := [("token", .tokenArg token), ("cwd", .cwdArg cwd)]
  let merged := kwUpdate base userKwargs
  kwInsert merged "env" (.envArg env)

/-! ## The `try/except/finally` of `WinLocalProcessSpawner.start`

`start` invokes `PopenAsUser`; a `PermissionError` is logged with the
`shutil.which`-resolved path of the first command argument and re-raised,
any other exception is logged and re-raised, and the `finally` block
detaches (never closes) the token handle, catching and logging a detach
failure.  The model records the surfaced outcome, the log, and the
operations performed on the token handle. -/

/-- A Python exception as `start` observes it: whether it is a
`PermissionError`, and its message payload. -/
structure PyErr where
  isPermission : Bool
  msg : String
deriving DecidableEq, Repr

/-- An operation performed on the caller-owned token handle. -/
inductive TokenOp
  | detach
  | closeTok
deriving DecidableEq, Repr

/-- A log line emitted by `start`. -/
inductive StartLog
  | errPermission (resolvedPath : String)
  | errStartFailed (msg : String)
  | warnDetachFailed
deriving DecidableEq, Repr

/-- The result of the launch section of `start`. -/
structure StartResult where
  outcome : Except PyErr Nat
  log : List StartLog
  tokenOps : List TokenOp
deriving Repr

/-- The `try/except/finally` of `WinLocalProcessSpawner.start` around the
`PopenAsUser` call.  `popenResult` is the outcome of the constructor
(`pid` on success), `whichResult` the result of `shutil.which(cmd[0])`,
`cmd0` the first command argument, `detachOk` whether `token.Detach()`
succeeds. -/
def startLaunch (popenResult : Except PyErr Nat) (token : Option Nat)
    (detachOk : Bool) (whichResult : Option String) (cmd0 : String) :
    StartResult :=
  let log1 : List StartLog :=
    match popenResult with
    | .ok _ => []
    | .error e =>
      if e.isPermission then [.errPermission (whichResult.getD cmd0)]
      else [.errStartFailed e.msg]
  let tokenPart : List TokenOp × List StartLog :=
    match token with
    | none => ([], [])
    | some _ => ([.detach], if detachOk then [] else [.warnDetachFailed])
  { outcome := popenResult
    log := log1 ++ tokenPart.2
    tokenOps := tokenPart.1 }

/-! ## `PopenAsUser.do_execute_child` (`win_utils.py`)

The launch sequence is embedded as a function of a configuration (the
arguments Python passes in) and an oracle giving the outcome of each
fallible OS call.  `GetLastError`, `WaitForSingleObject` on the freshly
created process handle and `GetExitCodeProcess` are value-returning
pywin32 calls that do not raise on this path, so the oracle gives them
plain values; `GetTokenInformation`, `setup_sacl`'s object manipulation,
`CreateProcessAsUser` and each `handle.Close()` may raise, so the oracle
gives them `Except` / success flags.  `CloseHandle` on the thread handle
is a raw `ctypes` call returning a `BOOL` that the code discards. -/

/-- Startup parameters (`win32process.STARTUPINFO`): a fresh instance has
`dwFlags = 0` and no standard-stream handles. -/
structure StartupInfo where
  dwFlags : Nat := 0
  hStdInput : Option Int := none
  hStdOutput : Option Int := none
  hStdError : Option Int := none
  wShowWindow : Nat := 0
deriving DecidableEq, Repr

def STARTF_USESTDHANDLES : Nat := 0x100
def STARTF_USESHOWWINDOW : Nat := 0x1
def SW_HIDE : Nat := 0
def WAIT_OBJECT_0 : Nat := 0
def STILL_ACTIVE : Int := 259

/-- The `args` parameter of `Popen`: a pre-built string or an argument
list. -/
inductive PyArgs
  | str (s : String)
  | list (l : List String)
deriving DecidableEq, Repr

/-- The inputs `do_execute_child` receives.  `p2cread`, `c2pwrite` and
`errwrite` are the child-side standard-stream handles produced by
`Popen._get_handles` (`-1` when standard streams are inherited);
`hasDevnull` is `hasattr(self, '_devnull')`. -/
structure ExecConfig where
  args : PyArgs
  executable : Option String := none
  close_fds : Bool := false
  cwd : Option String := none
  env : Option EnvMap := none
  startupinfo : Option StartupInfo := none
  creationflags : Nat := 0
  shell : Bool := false
  p2cread : Int := -1
  c2pwrite : Int := -1
  errwrite : Int := -1
  token : Option Nat := none
  comspec : Option String := none
  hasDevnull : Bool := false
deriving DecidableEq, Repr

instance {ε α : Type} [DecidableEq ε] [DecidableEq α] : DecidableEq (Except ε α) := fun a b =>
  match a, b with
  | .error e, .error f => decidable_of_iff (e = f) (by simp)
  | .error _, .ok _ => isFalse (by simp)
  | .ok _, .error _ => isFalse (by simp)
  | .ok x, .ok y => decidable_of_iff (x = y) (by simp)

/-- Outcomes of the OS calls made during one `do_execute_child` run.
Error payloads are Windows error codes. -/
structure OsOracle where
  sidResult : Except Nat Sid
  saclResult : Except Nat Unit
  createResult : Except Nat (Nat × Nat × Nat × Nat)
  lastError : Nat := 0
  waitSignaled : Bool := false
  exitCode : Int := STILL_ACTIVE
  p2creadCloseOk : Bool := true
  c2pwriteCloseOk : Bool := true
  errwriteCloseOk : Bool := true
  devnullCloseOk : Bool := true
  threadCloseOk : Bool := true
deriving DecidableEq, Repr

/-- A log line emitted by `win_utils` during `do_execute_child`. -/
inductive LogEvent
  | errSaclSetup (sid : Sid)
  | warnSaclFailed
  | errLastError (err : Nat)
  | errEarlyExit (code : Int)
  | errCreateException (code : Nat)
  | warnPipeClose (name : String)
  | warnDevnullClose
deriving DecidableEq, Repr

/-- Observable outcome of one `do_execute_child` run. -/
structure ExecResult where
  outcome : Except Nat Unit
  log : List LogEvent
  startupinfo : StartupInfo
  cmdline : String
  sidQueried : Bool
  saclInvoked : Bool
  createCalled : Bool
  waitCalled : Bool
  waitTimeoutMs : Option Nat
  exitCodeFetched : Option Int
  p2creadCloseAttempted : Bool
  c2pwriteCloseAttempted : Bool
  errwriteCloseAttempted : Bool
  threadCloseAttempted : Bool
  handleStored : Option Nat
  pidStored : Option Nat
  childCreated : Bool
deriving Repr

/-- The startup-parameter construction at the top of `do_execute_child`:
a fresh `STARTUPINFO` when none was passed; the explicit-stream-handles
flag and the three pipe ends exactly when `-1 not in (p2cread, c2pwrite,
errwrite)`; the hidden-window flag when `shell`. -/
def buildStartupInfo (cfg : ExecConfig) : StartupInfo :=
  let si := cfg.startupinfo.getD {}
  let si :=
    if cfg.p2cread ≠ -1 ∧ cfg.c2pwrite ≠ -1 ∧ cfg.errwrite ≠ -1 then
      { si with
        dwFlags := si.dwFlags ||| STARTF_USESTDHANDLES
        hStdInput := some cfg.p2cread
        hStdOutput := some cfg.c2pwrite
        hStdError := some cfg.errwrite }
    else si
  if cfg.shell then
    { si with dwFlags := si.dwFlags ||| STARTF_USESHOWWINDOW, wShowWindow := SW_HIDE }
  else si

/-- The command-line normalization of `do_execute_child`: list arguments
go through `list2cmdline`; under `shell` the command is wrapped as
`COMSPEC /c "args"` (with `cmd.exe` when `COMSPEC` is unset). -/
def normalizeCmdline (cfg : ExecConfig) : String :=
  let args :=
    match cfg.args with
    | .str s => s
    | .list l => list2cmdline l
  if cfg.shell then
    (cfg.comspec.getD "cmd.exe") ++ " /c \"" ++ args ++ "\""
  else args

/-- The SACL section of `do_execute_child`: when a token is present,
`GetTokenInformation` then `setup_sacl`, with any raised exception caught
and logged as a warning (`setup_sacl` itself first logs an error and
re-raises).  Returns (identity queried, grantor invoked, log). -/
def saclPhase (cfg : ExecConfig) (orc : OsOracle) : Bool × Bool × List LogEvent :=
  match cfg.token with
  | none => (false, false, [])
  | some _ =>
    match orc.sidResult with
    | .error _ => (true, false, [.warnSaclFailed])
    | .ok sid =>
      match orc.saclResult with
      | .error _ => (true, true, [.errSaclSetup sid, .warnSaclFailed])
      | .ok _ => (true, true, [])

/-- Method `PopenAsUser._close_pipe_handles`: each of the three child-side pipe
ends is closed when it is not `-1`, each attempt in its own
`try/except` that logs a warning on failure; then `_devnull` when
present. -/
def closePipeLogs (cfg : ExecConfig) (orc : OsOracle) : List LogEvent :=
  (if cfg.p2cread ≠ -1 ∧ orc.p2creadCloseOk = false then [.warnPipeClose "p2cread"] else [])
    ++ (if cfg.c2pwrite ≠ -1 ∧ orc.c2pwriteCloseOk = false then [.warnPipeClose "c2pwrite"] else [])
    ++ (if cfg.errwrite ≠ -1 ∧ orc.errwriteCloseOk = false then [.warnPipeClose "errwrite"] else [])
    ++ (if cfg.hasDevnull ∧ orc.devnullCloseOk = false then [.warnDevnullClose] else [])

/-- Method `PopenAsUser.do_execute_child`: normalize the command line, build the
startup parameters, run the SACL grant when a token is present, call
`CreateProcessAsUser` inside `try/except/finally` (the `finally` closing
the pipe ends), then — when the call returned — probe `GetLastError`,
wait up to 1000 ms and fetch/log the exit code in the `else` branch,
store the detached process handle and the pid, and close the thread
handle with `CLOSEHANDLE`, discarding its result. -/
def doExecuteChild (cfg : ExecConfig) (orc : OsOracle) : ExecResult :=
  let si := buildStartupInfo cfg
  let cl := normalizeCmdline cfg
  let sp := saclPhase cfg orc
  match orc.createResult with
  | .error e =>
    { outcome := .error e
      log := sp.2.2 ++ [.errCreateException e] ++ closePipeLogs cfg orc
      startupinfo := si
      cmdline := cl
      sidQueried := sp.1
      saclInvoked := sp.2.1
      createCalled := true
      waitCalled := false
      waitTimeoutMs := none
      exitCodeFetched := none
      p2creadCloseAttempted := decide (cfg.p2cread ≠ -1)
      c2pwriteCloseAttempted := decide (cfg.c2pwrite ≠ -1)
      errwriteCloseAttempted := decide (cfg.errwrite ≠ -1)
      threadCloseAttempted := false
      handleStored := none
      pidStored := none
      childCreated := false }
  | .ok (hp, ht, pid, _tid) =>
    let logErr := if orc.lastError ≠ 0 then [LogEvent.errLastError orc.lastError] else []
    let waited : Bool := orc.lastError == 0
    let signaled : Bool := waited && orc.waitSignaled
    let logExit :=
      if signaled ∧ orc.exitCode ≠ STILL_ACTIVE then [LogEvent.errEarlyExit orc.exitCode]
      else []
    { outcome := .ok ()
      log := sp.2.2 ++ logErr ++ logExit ++ closePipeLogs cfg orc
      startupinfo := si
      cmdline := cl
      sidQueried := sp.1
      saclInvoked := sp.2.1
      createCalled := true
      waitCalled := waited
      waitTimeoutMs := if waited then some 1000 else none
      exitCodeFetched := if signaled then some orc.exitCode else none
      p2creadCloseAttempted := decide (cfg.p2cread ≠ -1)
      c2pwriteCloseAttempted := decide (cfg.c2pwrite ≠ -1)
      errwriteCloseAttempted := decide (cfg.errwrite ≠ -1)
      threadCloseAttempted := decide (ht ≠ 0)
      handleStored := if hp ≠ 0 then some hp else none
      pidStored := if hp ≠ 0 then some pid else none
      childCreated := true }

/-! ## Concrete fixtures used by witnesses and counterexamples -/

/-- A launch with no token and inherited standard streams. -/
def cfgPlain : ExecConfig := { args := .str "app" }

/-- A launch with a token. -/
def cfgTok : ExecConfig := { args := .list ["app", "--port=8888"], token := some 7 }

/-- A launch with a token and explicit pipe handles. -/
def cfgPipes : ExecConfig :=
  { args := .str "app", token := some 7, p2cread := 3, c2pwrite := 4, errwrite := 5 }

/-- OS outcomes: everything succeeds and the process stays alive. -/
def orcQuiet : OsOracle :=
  { sidResult := .ok 9, saclResult := .ok (), createResult := .ok (10, 11, 42, 43) }

/-- OS outcomes: create returns valid handles but `GetLastError` reports 5. -/
def orcLastErr : OsOracle := { orcQuiet with lastError := 5 }

/-- OS outcomes: the thread-handle `CloseHandle` fails. -/
def orcThreadCloseFail : OsOracle := { orcQuiet with threadCloseOk := false }

/-- OS outcomes: the child exits within the grace window with the
window-station failure code `-1073741502`. -/
def orcEarlyExit : OsOracle :=
  { orcQuiet with waitSignaled := true, exitCode := -1073741502 }

/-- OS outcomes: identity extraction (`GetTokenInformation`) raises. -/
def orcSidFail : OsOracle := { orcQuiet with sidResult := .error 6 }

/-- OS outcomes: `CreateProcessAsUser` raises error 5 and every pipe
close fails as well. -/
def orcCreateFail : OsOracle :=
  { sidResult := .ok 9, saclResult := .ok (), createResult := .error 5,
    p2creadCloseOk := false, c2pwriteCloseOk := false, errwriteCloseOk := false }

/-- A character `list2cmdline` copies verbatim: not a backslash, not a
double quote, no whitespace. -/
def plainChar (c : Char) : Bool :=
  !(c == '\\' || c == '"' || c == ' ' || c == '\t')

/-- Naive contiguous-substring test, used to express that an error
message does not carry a path. -/
def strContains (hay needle : String) : Bool :=
  (List.range (hay.toList.length + 1)).any
    (fun i => ((hay.toList.drop i).take needle.toList.length) == needle.toList)

/-! ## Association-list lemmas -/

theorem findEnv_insert_self (e : EnvMap) (k v : String) :
    findEnv (insertEnv e k v) k = some v := by
  induction e with
  | nil => simp [insertEnv, findEnv]
  | cons p rest ih =>
    obtain ⟨k', v'⟩ := p
    by_cases h : k' = k
    · simp [insertEnv, h, findEnv]
    · simp [insertEnv, h, findEnv, ih]

theorem findEnv_insert_ne (e : EnvMap) (kin k v : String) (h : kin ≠ k) :
    findEnv (insertEnv e kin v) k = findEnv e k := by
  induction e with
  | nil => simp [insertEnv, findEnv, h]
  | cons p rest ih =>
    obtain ⟨k', v'⟩ := p
    by_cases h' : k' = kin
    · simp [insertEnv, h', findEnv, h]
    · simp [insertEnv, h', findEnv, ih]

theorem findEnv_eq_none_of_not_mem (e : EnvMap) (k : String)
    (h : k ∉ e.map Prod.fst) :
    findEnv e k = none := by
  induction e with
  | nil => rfl
  | cons p rest ih =>
    obtain ⟨k', v'⟩ := p
    simp only [List.map_cons, List.mem_cons, not_or] at h
    have hne : ¬k' = k := fun hh => h.1 hh.symm
    simp [findEnv, hne, ih h.2]

theorem findEnv_updateEnv (e u : EnvMap) (k : String)
    (hu : (u.map Prod.fst).Nodup) :
    findEnv (updateEnv e u) k =
      match findEnv u k with
      | some w => some w
      | none => findEnv e k := by
  induction u generalizing e with
  | nil => simp [updateEnv, findEnv]
  | cons p rest ih =>
    obtain ⟨k1, v1⟩ := p
    simp only [List.map_cons, List.nodup_cons] at hu
    have step : updateEnv e ((k1, v1) :: rest) = updateEnv (insertEnv e k1 v1) rest := rfl
    rw [step, ih _ hu.2]
    by_cases h : k1 = k
    · subst h
      have hnone : findEnv rest k1 = none :=
        findEnv_eq_none_of_not_mem _ _ hu.1
      simp [findEnv, hnone, findEnv_insert_self]
    · simp [findEnv, h, findEnv_insert_ne _ _ _ _ h]

theorem findEnv_forceKeys_not_mem (osEnv : EnvMap) (keys : List String) (k : String) :
    ∀ base : EnvMap, k ∉ keys → findEnv (forceKeys osEnv keys base) k = findEnv base k := by
  induction keys with
  | nil => intro base _; rfl
  | cons k1 rest ih =>
    intro base hk
    simp only [List.mem_cons, not_or] at hk
    have step : forceKeys osEnv (k1 :: rest) base =
        forceKeys osEnv rest
          (match findEnv osEnv k1 with
           | some v => insertEnv base k1 v
           | none => base) := rfl
    rw [step, ih _ hk.2]
    cases h : findEnv osEnv k1 with
    | none => rfl
    | some v => exact findEnv_insert_ne _ _ _ _ (fun hh => hk.1 hh.symm)

theorem findEnv_forceKeys_mem (osEnv : EnvMap) (keys : List String) (k v : String)
    (hv : findEnv osEnv k = some v) :
    ∀ base : EnvMap, k ∈ keys → findEnv (forceKeys osEnv keys base) k = some v := by
  induction keys with
  | nil => intro base h; cases h
  | cons k1 rest ih =>
    intro base hk
    have step : forceKeys osEnv (k1 :: rest) base =
        forceKeys osEnv rest
          (match findEnv osEnv k1 with
           | some v => insertEnv base k1 v
           | none => base) := rfl
    rw [step]
    by_cases hmem : k ∈ rest
    · exact ih _ hmem
    · have hk1 : k1 = k := by
        rcases List.mem_cons.mp hk with h | h
        · exact h.symm
        · exact absurd h hmem
      subst hk1
      rw [findEnv_forceKeys_not_mem _ _ _ _ hmem, hv, findEnv_insert_self]

/-! ## Claim C1 -/

/-- C1: for every identity, `setup_sacl` reads the existing window-station
DACL (an empty list when the object has none) and appends exactly the two
access-allowed entries for that identity — the generic
read/write/execute/all mask and the full window-station rights mask —
writing the result back, and does the same on the default desktop with the
desktop rights mask; every entry present before the grant is still present
after it. -/
theorem c1_setup_sacl_appends (sid : Sid) (st : SaclState) :
    (setup_sacl sid st).winstaDacl =
      some (st.winstaDacl.getD [] ++
        [⟨ACL_REVISION_DS, GENERIC_ACCESS, sid⟩, ⟨ACL_REVISION_DS, WINSTA_ALL, sid⟩]) ∧
    (setup_sacl sid st).desktopDacl =
      some (st.desktopDacl.getD [] ++
        [⟨ACL_REVISION_DS, GENERIC_ACCESS, sid⟩, ⟨ACL_REVISION_DS, DESKTOP_ALL, sid⟩]) ∧
    (∀ a ∈ st.winstaDacl.getD [], a ∈ (setup_sacl sid st).winstaDacl.getD []) ∧
    (∀ a ∈ st.desktopDacl.getD [], a ∈ (setup_sacl sid st).desktopDacl.getD []) := by
  refine ⟨rfl, rfl, ?_, ?_⟩ <;>
    · intro a ha
      simp only [setup_sacl, Option.getD_some, List.mem_append]
      exact Or.inl ha

/-- Witness for C1 at a window-station DACL holding one foreign entry and
a desktop object without a DACL. -/
theorem c1_setup_sacl_appends_witness :
    ACE.mk 2 3 9 ∈ (setup_sacl 5 ⟨some [⟨2, 3, 9⟩], none⟩).winstaDacl.getD [] ∧
    (setup_sacl 5 ⟨some [⟨2, 3, 9⟩], none⟩).desktopDacl =
      some [⟨ACL_REVISION_DS, GENERIC_ACCESS, 5⟩, ⟨ACL_REVISION_DS, DESKTOP_ALL, 5⟩] :=
  ⟨(c1_setup_sacl_appends 5 ⟨some [⟨2, 3, 9⟩], none⟩).2.2.1 ⟨2, 3, 9⟩ (by decide),
   (c1_setup_sacl_appends 5 ⟨some [⟨2, 3, 9⟩], none⟩).2.1⟩

/-! ## Claim C6 -/

/-- C6: every Windows-critical variable (`SYSTEMROOT`, `APPDATA`,
`WINDIR`, `USERPROFILE`, `TEMP`) present in the hub's own process
environment reaches the final child environment with the hub's value,
unless the user-profile block applied last overrides that key; without a
user-profile block the hub's value always survives. -/
theorem c6_critical_env_preserved (base osEnv u : EnvMap) (k v : String)
    (hk : k ∈ winEnvKeep) (hv : findEnv osEnv k = some v)
    (hu : (u.map Prod.fst).Nodup) :
    findEnv (childEnv base osEnv (some u)) k =
      (match findEnv u k with
       | some w => some w
       | none => some v) ∧
    findEnv (childEnv base osEnv none) k = some v := by
  have hbase : findEnv (get_env base osEnv) k = some v :=
    findEnv_forceKeys_mem osEnv winEnvKeep k v hv base hk
  constructor
  · show findEnv (updateEnv (get_env base osEnv) u) k = _
    rw [findEnv_updateEnv _ _ _ hu]
    cases h : findEnv u k with
    | none => simpa [h] using hbase
    | some w => rfl
  · exact hbase

/-- Witness for C6: `APPDATA` present in the hub environment, overridden
by the profile block in one run and absent from it in another. -/
theorem c6_critical_env_preserved_witness :
    findEnv (childEnv [("PATH", "p")] [("APPDATA", "hub")] (some [("APPDATA", "user")])) "APPDATA"
      = some "user" ∧
    findEnv (childEnv [("PATH", "p")] [("APPDATA", "hub")] (some [("PUBLIC", "pub")])) "APPDATA"
      = some "hub" ∧
    findEnv (childEnv [("PATH", "p")] [("APPDATA", "hub")] none) "APPDATA" = some "hub" := by
  refine ⟨?_, ?_, ?_⟩
  · exact (c6_critical_env_preserved [("PATH", "p")] [("APPDATA", "hub")]
      [("APPDATA", "user")] "APPDATA" "hub" (by decide) (by decide) (by decide)).1
  · exact (c6_critical_env_preserved [("PATH", "p")] [("APPDATA", "hub")]
      [("PUBLIC", "pub")] "APPDATA" "hub" (by decide) (by decide) (by decide)).1
  · exact (c6_critical_env_preserved [("PATH", "p")] [("APPDATA", "hub")]
      [] "APPDATA" "hub" (by decide) (by decide) (by decide)).2

/-! ## Claim C7 -/

/-- C7: working-directory resolution is a first-match priority chain: an
existing configured `notebook_dir` wins over everything; otherwise an
existing profile directory (the truthy `USERPROFILE` of the user
environment) is chosen; otherwise the current working directory when
retrievable; when retrieval fails, the freshly created temporary
directory is chosen and exists on disk afterwards. -/
theorem c7_working_directory_priority (notebook_dir : String) (fs : String → Bool)
    (user_env : Option EnvMap) (getcwd : Option String) (freshTmp : String) :
    (notebook_dir ≠ "" → fs notebook_dir = true →
      (determine_working_directory notebook_dir fs user_env getcwd freshTmp).1 = notebook_dir) ∧
    (notebook_dir = "" → ∀ p, profileCandidate user_env = some p → fs p = true →
      (determine_working_directory notebook_dir fs user_env getcwd freshTmp).1 = p) ∧
    (notebook_dir = "" →
      (∀ p, profileCandidate user_env = some p → fs p = false) →
      ∀ c, getcwd = some c →
      (determine_working_directory notebook_dir fs user_env getcwd freshTmp).1 = c) ∧
    (notebook_dir = "" →
      (∀ p, profileCandidate user_env = some p → fs p = false) →
      getcwd = none →
      (determine_working_directory notebook_dir fs user_env getcwd freshTmp).1 = freshTmp ∧
      (determine_working_directory notebook_dir fs user_env getcwd freshTmp).2 freshTmp = true) := by
  refine ⟨?_, ?_, ?_, ?_⟩
  · intro h1 h2
    simp [determine_working_directory, h1, h2]
  · intro h1 p hp hfs
    simp [determine_working_directory, h1, hp, hfs]
  · intro h1 hp c hc
    cases hpc : profileCandidate user_env with
    | none => simp [determine_working_directory, h1, hpc, cwdFallback, hc]
    | some p =>
      have hfs := hp p hpc
      simp [determine_working_directory, h1, hpc, hfs, cwdFallback, hc]
  · intro h1 hp h2
    cases hpc : profileCandidate user_env with
    | none =>
      constructor <;> simp [determine_working_directory, h1, hpc, cwdFallback, h2]
    | some p =>
      have hfs := hp p hpc
      constructor <;> simp [determine_working_directory, h1, hpc, hfs, cwdFallback, h2]

/-- Witness for C7: all four tiers exercised at concrete inputs. -/
theorem c7_working_directory_priority_witness :
    (determine_working_directory "C:/nb" (fun d => d == "C:/nb" || d == "C:/u") none none "T:/t").1 = "C:/nb" ∧
    (determine_working_directory "" (fun d => d == "C:/u") (some [("USERPROFILE", "C:/u")]) none "T:/t").1 = "C:/u" ∧
    (determine_working_directory "" (fun _ => false) (some [("USERPROFILE", "C:/u")]) (some "C:/cwd") "T:/t").1 = "C:/cwd" ∧
    (determine_working_directory "" (fun _ => false) none none "T:/t").1 = "T:/t" ∧
    (determine_working_directory "" (fun _ => false) none none "T:/t").2 "T:/t" = true := by
  refine ⟨?_, ?_, ?_, ?_, ?_⟩
  · exact (c7_working_directory_priority "C:/nb" (fun d => d == "C:/nb" || d == "C:/u")
      none none "T:/t").1 (by decide) (by decide)
  · exact (c7_working_directory_priority "" (fun d => d == "C:/u")
      (some [("USERPROFILE", "C:/u")]) none "T:/t").2.1 rfl "C:/u" (by decide) (by decide)
  · exact (c7_working_directory_priority "" (fun _ => false)
      (some [("USERPROFILE", "C:/u")]) (some "C:/cwd") "T:/t").2.2.1 rfl
      (by intro p hp; decide) "C:/cwd" rfl
  · exact ((c7_working_directory_priority "" (fun _ => false) none none "T:/t").2.2.2 rfl
      (by intro p hp; cases hp) rfl).1
  · exact ((c7_working_directory_priority "" (fun _ => false) none none "T:/t").2.2.2 rfl
      (by intro p hp; cases hp) rfl).2

/-! ## Claim C10 -/

theorem kwFind_kwInsert_self (e : Kwargs) (k : String) (v : PopenArg) :
    kwFind (kwInsert e k v) k = some v := by
  induction e with
  | nil => simp [kwInsert, kwFind]
  | cons p rest ih =>
    obtain ⟨k', v'⟩ := p
    by_cases h : k' = k
    · simp [kwInsert, h, kwFind]
    · simp [kwInsert, h, kwFind, ih]

/-- C10: the `env` entry of the keyword arguments passed to `PopenAsUser`
is always the spawner-computed environment — a caller-supplied
`popen_kwargs` entry for `env` is overwritten before launch. -/
theorem c10_env_not_overridable (token : Option Nat) (cwd : Option String)
    (userKwargs : Kwargs) (env : EnvMap) :
    kwFind (buildPopenKwargs token cwd userKwargs env) "env" = some (.envArg env) := by
  unfold buildPopenKwargs
  exact kwFind_kwInsert_self _ _ _

/-! ## Projection lemmas for `doExecuteChild` -/

theorem exec_createCalled (cfg : ExecConfig) (orc : OsOracle) :
    (doExecuteChild cfg orc).createCalled = true := by
  cases hc : orc.createResult with
  | error e => simp [doExecuteChild, hc]
  | ok q => obtain ⟨a, b, c, d⟩ := q; simp [doExecuteChild, hc]

theorem exec_sidQueried (cfg : ExecConfig) (orc : OsOracle) :
    (doExecuteChild cfg orc).sidQueried = (saclPhase cfg orc).1 := by
  cases hc : orc.createResult with
  | error e => simp [doExecuteChild, hc]
  | ok q => obtain ⟨a, b, c, d⟩ := q; simp [doExecuteChild, hc]

theorem exec_saclInvoked (cfg : ExecConfig) (orc : OsOracle) :
    (doExecuteChild cfg orc).saclInvoked = (saclPhase cfg orc).2.1 := by
  cases hc : orc.createResult with
  | error e => simp [doExecuteChild, hc]
  | ok q => obtain ⟨a, b, c, d⟩ := q; simp [doExecuteChild, hc]

theorem exec_startupinfo (cfg : ExecConfig) (orc : OsOracle) :
    (doExecuteChild cfg orc).startupinfo = buildStartupInfo cfg := by
  cases hc : orc.createResult with
  | error e => simp [doExecuteChild, hc]
  | ok q => obtain ⟨a, b, c, d⟩ := q; simp [doExecuteChild, hc]

theorem exec_cmdline (cfg : ExecConfig) (orc : OsOracle) :
    (doExecuteChild cfg orc).cmdline = normalizeCmdline cfg := by
  cases hc : orc.createResult with
  | error e => simp [doExecuteChild, hc]
  | ok q => obtain ⟨a, b, c, d⟩ := q; simp [doExecuteChild, hc]

theorem exec_mem_log_of_mem_sacl (cfg : ExecConfig) (orc : OsOracle) (x : LogEvent)
    (hx : x ∈ (saclPhase cfg orc).2.2) : x ∈ (doExecuteChild cfg orc).log := by
  cases hc : orc.createResult with
  | error e => simp [doExecuteChild, hc, List.mem_append]; tauto
  | ok q =>
    obtain ⟨a, b, c, d⟩ := q
    simp [doExecuteChild, hc, List.mem_append]
    tauto

theorem exec_mem_log_of_mem_pipes (cfg : ExecConfig) (orc : OsOracle) (x : LogEvent)
    (hx : x ∈ closePipeLogs cfg orc) : x ∈ (doExecuteChild cfg orc).log := by
  cases hc : orc.createResult with
  | error e => simp [doExecuteChild, hc, List.mem_append]; tauto
  | ok q =>
    obtain ⟨a, b, c, d⟩ := q
    simp [doExecuteChild, hc, List.mem_append]
    tauto

theorem exec_pipeAttempts (cfg : ExecConfig) (orc : OsOracle) :
    ((doExecuteChild cfg orc).p2creadCloseAttempted = true ↔ cfg.p2cread ≠ -1) ∧
    ((doExecuteChild cfg orc).c2pwriteCloseAttempted = true ↔ cfg.c2pwrite ≠ -1) ∧
    ((doExecuteChild cfg orc).errwriteCloseAttempted = true ↔ cfg.errwrite ≠ -1) := by
  cases hc : orc.createResult with
  | error e => simp [doExecuteChild, hc]
  | ok q => obtain ⟨a, b, c, d⟩ := q; simp [doExecuteChild, hc]

theorem saclPhase_none (cfg : ExecConfig) (orc : OsOracle) (h : cfg.token = none) :
    saclPhase cfg orc = (false, false, []) := by
  simp [saclPhase, h]

theorem saclPhase_sidErr (cfg : ExecConfig) (orc : OsOracle) (t ec : Nat)
    (h1 : cfg.token = some t) (h2 : orc.sidResult = .error ec) :
    saclPhase cfg orc = (true, false, [.warnSaclFailed]) := by
  simp [saclPhase, h1, h2]

theorem saclPhase_saclErr (cfg : ExecConfig) (orc : OsOracle) (t s ec : Nat)
    (h1 : cfg.token = some t) (h2 : orc.sidResult = .ok s)
    (h3 : orc.saclResult = .error ec) :
    saclPhase cfg orc = (true, true, [.errSaclSetup s, .warnSaclFailed]) := by
  simp [saclPhase, h1, h2, h3]

theorem saclPhase_ok (cfg : ExecConfig) (orc : OsOracle) (t s : Nat)
    (h1 : cfg.token = some t) (h2 : orc.sidResult = .ok s)
    (h3 : orc.saclResult = .ok ()) :
    saclPhase cfg orc = (true, true, []) := by
  simp [saclPhase, h1, h2, h3]

/-! ## Claim C4 -/

/-- C4: identity extraction runs exactly when a token is present (a
token-free launch attempts no grant at all); the grantor is invoked
whenever identity extraction succeeds; a failure of identity extraction
or of any grantor step is logged as a warning; and `CreateProcessAsUser`
is still attempted in every case. -/
theorem c4_grant_exactly_with_token (cfg : ExecConfig) (orc : OsOracle) :
    ((doExecuteChild cfg orc).createCalled = true) ∧
    ((doExecuteChild cfg orc).sidQueried = cfg.token.isSome) ∧
    (cfg.token = none → (doExecuteChild cfg orc).saclInvoked = false) ∧
    (∀ t s, cfg.token = some t → orc.sidResult = .ok s →
      (doExecuteChild cfg orc).saclInvoked = true) ∧
    (∀ t ec, cfg.token = some t → orc.sidResult = .error ec →
      (doExecuteChild cfg orc).saclInvoked = false ∧
      LogEvent.warnSaclFailed ∈ (doExecuteChild cfg orc).log) ∧
    (∀ t s ec, cfg.token = some t → orc.sidResult = .ok s →
      orc.saclResult = .error ec →
      LogEvent.warnSaclFailed ∈ (doExecuteChild cfg orc).log) := by
  refine ⟨exec_createCalled cfg orc, ?_, ?_, ?_, ?_, ?_⟩
  · rw [exec_sidQueried]
    cases h : cfg.token with
    | none => simp [saclPhase_none cfg orc h]
    | some t =>
      cases hs : orc.sidResult with
      | error ec => simp [saclPhase_sidErr cfg orc t ec h hs]
      | ok s =>
        cases hsa : orc.saclResult with
        | error ec => simp [saclPhase_saclErr cfg orc t s ec h hs hsa]
        | ok u => simp [saclPhase_ok cfg orc t s h hs hsa]
  · intro h
    rw [exec_saclInvoked, saclPhase_none cfg orc h]
  · intro t s h1 h2
    rw [exec_saclInvoked]
    cases hsa : orc.saclResult with
    | error ec => rw [saclPhase_saclErr cfg orc t s ec h1 h2 hsa]
    | ok u => rw [saclPhase_ok cfg orc t s h1 h2 hsa]
  · intro t ec h1 h2
    constructor
    · rw [exec_saclInvoked, saclPhase_sidErr cfg orc t ec h1 h2]
    · exact exec_mem_log_of_mem_sacl cfg orc _
        (by rw [saclPhase_sidErr cfg orc t ec h1 h2]; simp)
  · intro t s ec h1 h2 h3
    exact exec_mem_log_of_mem_sacl cfg orc _
      (by rw [saclPhase_saclErr cfg orc t s ec h1 h2 h3]; simp)

/-- Witness for C4: a token-free launch and a token launch whose grant
fails, both at concrete inputs. -/
theorem c4_grant_exactly_with_token_witness :
    (doExecuteChild cfgPlain orcQuiet).sidQueried = false ∧
    (doExecuteChild cfgPlain orcQuiet).saclInvoked = false ∧
    (doExecuteChild cfgTok orcSidFail).createCalled = true ∧
    LogEvent.warnSaclFailed ∈ (doExecuteChild cfgTok orcSidFail).log := by
  refine ⟨?_, ?_, ?_, ?_⟩
  · exact (c4_grant_exactly_with_token cfgPlain orcQuiet).2.1
  · exact (c4_grant_exactly_with_token cfgPlain orcQuiet).2.2.1 rfl
  · exact (c4_grant_exactly_with_token cfgTok orcSidFail).1
  · exact ((c4_grant_exactly_with_token cfgTok orcSidFail).2.2.2.2.1 7 6 rfl rfl).2

/-! ## Claim C5 -/

/-- C5: when any of the three standard streams is redirected —
`Popen._get_handles` hands `do_execute_child` either three `-1`s (nothing
redirected) or three valid handles (at least one stream redirected), the
hypothesis below — the use-explicit-stream-handles flag (bit 8,
`STARTF_USESTDHANDLES`) is set and the three pipe ends are wired into the
startup parameters; otherwise the flag stays clear and no stream handle
is set, so the child inherits the launcher's streams. -/
theorem c5_std_stream_wiring (cfg : ExecConfig) (orc : OsOracle)
    (hstd : (cfg.p2cread = -1 ∧ cfg.c2pwrite = -1 ∧ cfg.errwrite = -1) ∨
      (cfg.p2cread ≠ -1 ∧ cfg.c2pwrite ≠ -1 ∧ cfg.errwrite ≠ -1))
    (hsi : cfg.startupinfo = none) :
    ((cfg.p2cread ≠ -1 ∨ cfg.c2pwrite ≠ -1 ∨ cfg.errwrite ≠ -1) →
      (doExecuteChild cfg orc).startupinfo.dwFlags.testBit 8 = true ∧
      (doExecuteChild cfg orc).startupinfo.hStdInput = some cfg.p2cread ∧
      (doExecuteChild cfg orc).startupinfo.hStdOutput = some cfg.c2pwrite ∧
      (doExecuteChild cfg orc).startupinfo.hStdError = some cfg.errwrite) ∧
    ((cfg.p2cread = -1 ∧ cfg.c2pwrite = -1 ∧ cfg.errwrite = -1) →
      (doExecuteChild cfg orc).startupinfo.dwFlags.testBit 8 = false ∧
      (doExecuteChild cfg orc).startupinfo.hStdInput = none ∧
      (doExecuteChild cfg orc).startupinfo.hStdOutput = none ∧
      (doExecuteChild cfg orc).startupinfo.hStdError = none) := by
  rw [exec_startupinfo]
  rcases hstd with ⟨h1, h2, h3⟩ | ⟨h1, h2, h3⟩
  · constructor
    · intro h
      rcases h with h | h | h
      · exact absurd h1 h
      · exact absurd h2 h
      · exact absurd h3 h
    · intro _
      have hno : ¬(cfg.p2cread ≠ -1 ∧ cfg.c2pwrite ≠ -1 ∧ cfg.errwrite ≠ -1) := by
        simp [h1]
      cases hsh : cfg.shell <;>
        simp [buildStartupInfo, hsi, hno, hsh, STARTF_USESHOWWINDOW, SW_HIDE]
      all_goals decide
  · constructor
    · intro _
      have hyes : cfg.p2cread ≠ -1 ∧ cfg.c2pwrite ≠ -1 ∧ cfg.errwrite ≠ -1 := ⟨h1, h2, h3⟩
      cases hsh : cfg.shell <;>
        simp [buildStartupInfo, hsi, hyes, hsh, STARTF_USESTDHANDLES,
          STARTF_USESHOWWINDOW, SW_HIDE] <;>
        decide
    · intro h
      exact absurd h.1 h1

/-- Witness for C5: a fully redirected launch and a fully inherited
launch at concrete handles. -/
theorem c5_std_stream_wiring_witness :
    (doExecuteChild cfgPipes orcQuiet).startupinfo.dwFlags.testBit 8 = true ∧
    (doExecuteChild cfgPipes orcQuiet).startupinfo.hStdInput = some 3 ∧
    (doExecuteChild cfgPlain orcQuiet).startupinfo.dwFlags.testBit 8 = false ∧
    (doExecuteChild cfgPlain orcQuiet).startupinfo.hStdInput = none := by
  refine ⟨?_, ?_, ?_, ?_⟩
  · exact ((c5_std_stream_wiring cfgPipes orcQuiet
      (Or.inr ⟨by decide, by decide, by decide⟩) rfl).1 (Or.inl (by decide))).1
  · exact ((c5_std_stream_wiring cfgPipes orcQuiet
      (Or.inr ⟨by decide, by decide, by decide⟩) rfl).1 (Or.inl (by decide))).2.1
  · exact ((c5_std_stream_wiring cfgPlain orcQuiet
      (Or.inl ⟨rfl, rfl, rfl⟩) rfl).2 ⟨rfl, rfl, rfl⟩).1
  · exact ((c5_std_stream_wiring cfgPlain orcQuiet
      (Or.inl ⟨rfl, rfl, rfl⟩) rfl).2 ⟨rfl, rfl, rfl⟩).2.1

/-! ## Claim C2 -/

/-- C2 counterexample: a concrete successful launch whose thread-handle
`CloseHandle` fails — the close is attempted, but the failure is
silently discarded: the run's log is empty, so not every cleanup failure
is logged. -/
theorem c2_counterexample :
    (doExecuteChild cfgPlain orcThreadCloseFail).threadCloseAttempted = true ∧
    orcThreadCloseFail.threadCloseOk = false ∧
    (doExecuteChild cfgPlain orcThreadCloseFail).log = [] := by
  refine ⟨rfl, rfl, rfl⟩

/-- C2 (amended): on every exit path the cleanup obligations are
discharged best-effort: a supplied token is detached — never closed, the
caller owns it — in the `finally` of `start`, and a detach failure is
logged; the child-side pipe ends are each closed independently whenever
they were used, with each close failure logged; the thread handle is
closed whenever process creation returned one and is never exposed (only
the process handle is stored), but the result of that close is discarded
rather than logged; and no cleanup failure masks or replaces the primary
outcome, which is determined by the create call alone. -/
theorem c2_cleanup_best_effort (popenResult : Except PyErr Nat)
    (token : Option Nat) (detachOk : Bool) (which : Option String)
    (cmd0 : String) (cfg : ExecConfig) (orc : OsOracle) :
    ((startLaunch popenResult token detachOk which cmd0).tokenOps =
      if token.isSome then [TokenOp.detach] else []) ∧
    (TokenOp.closeTok ∉ (startLaunch popenResult token detachOk which cmd0).tokenOps) ∧
    ((startLaunch popenResult token detachOk which cmd0).outcome = popenResult) ∧
    (token.isSome = true → detachOk = false →
      StartLog.warnDetachFailed ∈ (startLaunch popenResult token detachOk which cmd0).log) ∧
    ((doExecuteChild cfg orc).p2creadCloseAttempted = true ↔ cfg.p2cread ≠ -1) ∧
    ((doExecuteChild cfg orc).c2pwriteCloseAttempted = true ↔ cfg.c2pwrite ≠ -1) ∧
    ((doExecuteChild cfg orc).errwriteCloseAttempted = true ↔ cfg.errwrite ≠ -1) ∧
    (cfg.p2cread ≠ -1 → orc.p2creadCloseOk = false →
      LogEvent.warnPipeClose "p2cread" ∈ (doExecuteChild cfg orc).log) ∧
    (cfg.c2pwrite ≠ -1 → orc.c2pwriteCloseOk = false →
      LogEvent.warnPipeClose "c2pwrite" ∈ (doExecuteChild cfg orc).log) ∧
    (cfg.errwrite ≠ -1 → orc.errwriteCloseOk = false →
      LogEvent.warnPipeClose "errwrite" ∈ (doExecuteChild cfg orc).log) ∧
    (∀ a b c d, orc.createResult = .ok (a, b, c, d) →
      ((doExecuteChild cfg orc).threadCloseAttempted = true ↔ b ≠ 0) ∧
      (doExecuteChild cfg orc).outcome = .ok () ∧
      (doExecuteChild cfg orc).handleStored = (if a ≠ 0 then some a else none)) ∧
    (∀ e, orc.createResult = .error e →
      (doExecuteChild cfg orc).outcome = .error e ∧
      (doExecuteChild cfg orc).threadCloseAttempted = false) := by
  obtain ⟨hp1, hp2, hp3⟩ := exec_pipeAttempts cfg orc
  refine ⟨?_, ?_, rfl, ?_, hp1, hp2, hp3, ?_, ?_, ?_, ?_, ?_⟩
  · cases token <;> simp [startLaunch]
  · cases token <;> simp [startLaunch]
  · intro h1 h2
    cases htk : token with
    | none => rw [htk] at h1; cases h1
    | some t => simp [startLaunch, htk, h2, List.mem_append]
  · intro h1 h2
    apply exec_mem_log_of_mem_pipes
    simp [closePipeLogs, h1, h2, List.mem_append]
  · intro h1 h2
    apply exec_mem_log_of_mem_pipes
    simp [closePipeLogs, h1, h2, List.mem_append]
  · intro h1 h2
    apply exec_mem_log_of_mem_pipes
    simp [closePipeLogs, h1, h2, List.mem_append]
  · intro a b c d hc
    refine ⟨?_, ?_, ?_⟩ <;> simp [doExecuteChild, hc]
  · intro e hc
    constructor <;> simp [doExecuteChild, hc]

/-- Witness for C2: detach-failure logging, pipe-close-failure logging,
thread-handle close and outcome preservation at concrete inputs. -/
theorem c2_cleanup_best_effort_witness :
    StartLog.warnDetachFailed ∈ (startLaunch (.ok 42) (some 7) false none "app").log ∧
    LogEvent.warnPipeClose "p2cread" ∈ (doExecuteChild cfgPipes orcCreateFail).log ∧
    ((doExecuteChild cfgPipes orcQuiet).threadCloseAttempted = true) ∧
    ((doExecuteChild cfgPipes orcCreateFail).outcome = .error 5) := by
  refine ⟨?_, ?_, ?_, ?_⟩
  · exact (c2_cleanup_best_effort (.ok 42) (some 7) false none "app"
      cfgPlain orcQuiet).2.2.2.1 rfl rfl
  · exact (c2_cleanup_best_effort (.ok 0) none true none ""
      cfgPipes orcCreateFail).2.2.2.2.2.2.2.1 (by decide) rfl
  · exact ((c2_cleanup_best_effort (.ok 0) none true none ""
      cfgPipes orcQuiet).2.2.2.2.2.2.2.2.2.2.1 10 11 42 43 rfl).1.mpr (by decide)
  · exact ((c2_cleanup_best_effort (.ok 0) none true none ""
      cfgPipes orcCreateFail).2.2.2.2.2.2.2.2.2.2.2 5 rfl).1

/-! ## Claim C3 -/

/-- C3 counterexample: a concrete run in which `CreateProcessAsUser`
returns valid handles — a nominally successful create — but the
immediate `GetLastError` probe reports 5: the launch logs the error,
skips the grace wait entirely, and still returns normally. -/
theorem c3_counterexample :
    (doExecuteChild cfgPlain orcLastErr).createCalled = true ∧
    (doExecuteChild cfgPlain orcLastErr).outcome = .ok () ∧
    (doExecuteChild cfgPlain orcLastErr).handleStored = some 10 ∧
    (doExecuteChild cfgPlain orcLastErr).waitCalled = false ∧
    (doExecuteChild cfgPlain orcLastErr).waitTimeoutMs = none := by
  refine ⟨rfl, rfl, rfl, rfl, rfl⟩

/-- C3 (amended): after a create call that returned handles and whose
immediate `GetLastError` probe reports zero, the launcher waits on the
new process handle for at most 1000 ms; if the process was signalled
within that window its exit code is fetched and — whenever it differs
from the `STILL_ACTIVE` sentinel — logged as a diagnostic; no error is
raised for the early exit and the process handle and pid are still
stored.  When the probe reports a nonzero code the wait is skipped and
only the probe error is logged; an early exit is never converted into a
thrown error. -/
theorem c3_grace_wait_advisory (cfg : ExecConfig) (orc : OsOracle)
    (a b c d : Nat) (hc : orc.createResult = .ok (a, b, c, d))
    (herr : orc.lastError = 0) :
    (doExecuteChild cfg orc).outcome = .ok () ∧
    (doExecuteChild cfg orc).waitCalled = true ∧
    (doExecuteChild cfg orc).waitTimeoutMs = some 1000 ∧
    (orc.waitSignaled = true →
      (doExecuteChild cfg orc).exitCodeFetched = some orc.exitCode ∧
      (orc.exitCode ≠ STILL_ACTIVE →
        LogEvent.errEarlyExit orc.exitCode ∈ (doExecuteChild cfg orc).log)) ∧
    (a ≠ 0 →
      (doExecuteChild cfg orc).handleStored = some a ∧
      (doExecuteChild cfg orc).pidStored = some c) := by
  refine ⟨?_, ?_, ?_, ?_, ?_⟩
  · simp [doExecuteChild, hc]
  · simp [doExecuteChild, hc, herr]
  · simp [doExecuteChild, hc, herr]
  · intro hw
    constructor
    · simp [doExecuteChild, hc, herr, hw]
    · intro hcode
      simp [doExecuteChild, hc, herr, hw, hcode, List.mem_append]
  · intro ha
    constructor <;> simp [doExecuteChild, hc, ha]

/-- Witness for C3: a child that exits within the grace window with the
window-station failure code; the exit code is fetched and logged and the
launch still yields handle and pid. -/
theorem c3_grace_wait_advisory_witness :
    (doExecuteChild cfgTok orcEarlyExit).outcome = .ok () ∧
    (doExecuteChild cfgTok orcEarlyExit).exitCodeFetched = some (-1073741502) ∧
    LogEvent.errEarlyExit (-1073741502) ∈ (doExecuteChild cfgTok orcEarlyExit).log ∧
    (doExecuteChild cfgTok orcEarlyExit).handleStored = some 10 := by
  have h := c3_grace_wait_advisory cfgTok orcEarlyExit 10 11 42 43 rfl rfl
  exact ⟨h.1, (h.2.2.2.1 rfl).1, (h.2.2.2.1 rfl).2 (by decide),
    (h.2.2.2.2 (by decide)).1⟩

/-! ## Claim C8 -/

/-- C8 counterexample: at a concrete OS permission failure the error the
caller receives is the unchanged original — its message does not contain
the resolved path of the first command argument; the resolved path
appears only in the log line. -/
theorem c8_counterexample :
    (startLaunch (.error ⟨true, "Access is denied"⟩) none true
        (some "C:/app.exe") "app").outcome =
      .error ⟨true, "Access is denied"⟩ ∧
    strContains "Access is denied" "C:/app.exe" = false ∧
    (startLaunch (.error ⟨true, "Access is denied"⟩) none true
        (some "C:/app.exe") "app").log = [.errPermission "C:/app.exe"] := by
  refine ⟨rfl, by decide, rfl⟩

/-- C8 (amended): when the launch raises a permission error, `start`
logs the `shutil.which`-resolved filesystem path of the first command
argument (falling back to the argument itself) and re-raises the
original error unchanged to the caller: the resolved path is carried in
the log, not in the surfaced error. -/
theorem c8_permission_error_path_logged (e : PyErr) (token : Option Nat)
    (detachOk : Bool) (which : Option String) (cmd0 : String)
    (he : e.isPermission = true) :
    (startLaunch (.error e) token detachOk which cmd0).outcome = .error e ∧
    StartLog.errPermission (which.getD cmd0) ∈
      (startLaunch (.error e) token detachOk which cmd0).log := by
  constructor
  · rfl
  · cases token <;> simp [startLaunch, he, List.mem_append]

/-- Witness for C8 at a concrete permission error with a resolvable
executable. -/
theorem c8_permission_error_path_logged_witness :
    (startLaunch (.error ⟨true, "EACCES"⟩) (some 7) true
        (some "C:/hub/app.exe") "app").outcome = .error ⟨true, "EACCES"⟩ ∧
    StartLog.errPermission "C:/hub/app.exe" ∈
      (startLaunch (.error ⟨true, "EACCES"⟩) (some 7) true
        (some "C:/hub/app.exe") "app").log := by
  exact c8_permission_error_path_logged ⟨true, "EACCES"⟩ (some 7) true
    (some "C:/hub/app.exe") "app" rfl

/-! ## Claim C9 -/

theorem cmdlineScan_plain (l : List Char) (h : l.all plainChar = true) :
    cmdlineScan l [] = (l, []) := by
  induction l with
  | nil => rfl
  | cons c rest ih =>
    simp only [List.all_cons, Bool.and_eq_true] at h
    have hc := h.1
    have h1 : ¬c = '\\' := by
      intro hh; subst hh; simp [plainChar] at hc
    have h2 : ¬c = '"' := by
      intro hh; subst hh; simp [plainChar] at hc
    simp [cmdlineScan, h1, h2, ih h.2]

theorem not_mem_of_all_plain (l : List Char) (h : l.all plainChar = true)
    (c : Char) (hc : plainChar c = false) : c ∉ l := by
  intro hmem
  have hall := List.all_eq_true.mp h c hmem
  rw [hc] at hall
  exact Bool.false_ne_true hall

theorem needquote_eq_false_of_plain (arg : String) (hne : arg ≠ "")
    (h : arg.toList.all plainChar = true) : needquote arg = false := by
  have hsp : ' ' ∉ arg.toList := not_mem_of_all_plain _ h ' ' (by decide)
  have htab : '\t' ∉ arg.toList := not_mem_of_all_plain _ h '\t' (by decide)
  simp [needquote, hne]
  exact ⟨hsp, htab⟩

theorem toList_mk (l : List Char) : (String.mk l).toList = l := rfl

theorem renderArg_plain (arg : String) (hne : arg ≠ "")
    (h : arg.toList.all plainChar = true) : renderArg arg = arg := by
  have hnq : needquote arg = false := needquote_eq_false_of_plain arg hne h
  have hscan := cmdlineScan_plain arg.toList h
  simp only [renderArg, hnq, hscan, Bool.false_eq_true, if_false,
    List.nil_append, List.append_nil]
  cases arg
  rfl

/-- C9 counterexample: the argument `a"b` contains a special character
(a double quote) yet its normalization `a\"b` is not enclosed in quotes
— platform rules escape the quote instead; and under a shell wrapper the
command `["app", "--port=8888"]` is appended as a single but unquoted
argument of the wrapper. -/
theorem c9_counterexample :
    list2cmdline ["a\"b"] = "a\\\"b" ∧
    (list2cmdline ["a\"b"]).toList.head? = some 'a' ∧
    buildCmd ["app", "--port=8888"] ["cmd"] = ["cmd", "app --port=8888"] ∧
    ("app --port=8888").toList.head? = some 'a' := by
  refine ⟨by decide, by decide, by decide, by decide⟩

/-- C9 (amended): command normalization produces a single command-line
string under the platform quoting rules: every argument containing
whitespace (or empty) is individually enclosed in double quotes, while
special characters are backslash-escaped in place rather than quoted;
arguments free of special characters and whitespace pass through
verbatim; when a shell wrapper is requested the entire normalized
command becomes a single argument appended to the wrapper's command,
each original argument individually POSIX-quoted exactly when it is
empty or contains characters outside the safe class. -/
theorem c9_command_normalization :
    (∀ seq : List String, list2cmdline seq =
      String.intercalate " " (seq.map renderArg)) ∧
    (∀ arg : String, needquote arg = true →
      ∃ mid : List Char, (renderArg arg).toList = '"' :: mid ++ ['"']) ∧
    (∀ arg : String, arg ≠ "" → arg.toList.all plainChar = true →
      renderArg arg = arg) ∧
    (∀ s : String, s = "" ∨ s.toList.all shlexSafe = false →
      ∃ mid : List Char, (shlexQuote s).toList = squote :: mid ++ [squote]) ∧
    (∀ s : String, s ≠ "" → s.toList.all shlexSafe = true → shlexQuote s = s) ∧
    (∀ cmd sc : List String, sc ≠ [] →
      buildCmd cmd sc = sc ++ [String.intercalate " " (cmd.map shlexQuote)]) := by
  refine ⟨fun seq => rfl, ?_, renderArg_plain, ?_, ?_, ?_⟩
  · intro arg h
    refine ⟨(cmdlineScan arg.toList []).1 ++ (cmdlineScan arg.toList []).2 ++
      (cmdlineScan arg.toList []).2, ?_⟩
    simp [renderArg, h, toList_mk, List.append_assoc]
  · intro s h
    rcases h with h | h
    · exact ⟨[], by simp [shlexQuote, h, toList_mk]⟩
    · by_cases hs : s = ""
      · exact ⟨[], by simp [shlexQuote, hs, toList_mk]⟩
      · have hcond : ¬(s.toList.all shlexSafe = true) := by
          rw [h]; exact Bool.false_ne_true
        refine ⟨(s.toList.map
          (fun c => if c = squote then squoteEsc else [c])).flatten, ?_⟩
        unfold shlexQuote
        rw [if_neg hs, if_neg hcond]
        rfl
  · intro s h1 h2
    unfold shlexQuote
    rw [if_neg h1, if_pos h2]
  · intro cmd sc h
    simp [buildCmd, h]

/-- Witness for C9: a whitespace argument is double-quoted, a plain
argument passes through, an unsafe argument is POSIX-quoted, a safe one
is not, and the shell wrapper receives the joined command as its single
last argument. -/
theorem c9_command_normalization_witness :
    (∃ mid : List Char, (renderArg "a b").toList = '"' :: mid ++ ['"']) ∧
    renderArg "app" = "app" ∧
    (∃ mid : List Char, (shlexQuote "it is").toList = squote :: mid ++ [squote]) ∧
    shlexQuote "--port=8888" = "--port=8888" ∧
    buildCmd ["app", "--port=8888"] ["cmd"] =
      ["cmd"] ++ [String.intercalate " " (["app", "--port=8888"].map shlexQuote)] := by
  refine ⟨?_, ?_, ?_, ?_, ?_⟩
  · exact c9_command_normalization.2.1 "a b" (by decide)
  · exact c9_command_normalization.2.2.1 "app" (by decide) (by decide)
  · exact c9_command_normalization.2.2.2.1 "it is" (Or.inr (by decide))
  · exact c9_command_normalization.2.2.2.2.1 "--port=8888" (by decide) (by decide)
  · exact c9_command_normalization.2.2.2.2.2 ["app", "--port=8888"] ["cmd"] (by decide)

end WinSpawner
